import Mathlib

/-!
Verification of the RasPiAPRS beacon daemon core (`src/main.py`) against its
natural-language specification.  The Python classes are shallowly embedded:
pure numeric code is translated over a `LinearOrderedField` (instantiated at
`ℚ` for executable witnesses and at `ℝ` where the source uses transcendental
functions), file I/O becomes explicit storage values, and Python dynamic-type
errors become `Except` results.
-/

namespace RasPiAPRS

/-! ### PersistentCounter (src/main.py lines 258-292)

The backing file is modelled at parse level: `none` is a missing file or an
IOError on open, `some none` is a file whose first line does not parse as a
Python integer (`int` raises `ValueError`), and `some (some n)` is a file
whose first line parses as the integer `n`.  Both exception classes are
caught by `_load`, which then stores `0`. -/

abbrev Storage := Option (Option ℤ)

namespace PersistentCounter

/-- Embedding of `PersistentCounter._load`: read the stored value, defaulting
to `0` on a missing file or an unparsable first line; a value at or above
`modulo` is reset to `0`. -/
def load (modulo : ℤ) (st : Storage) : ℤ :=
  match st with
  | none => 0
  | some none => 0
  | some (some n) => if n ≥ modulo then 0 else n

/-- Embedding of the `count` property: `self._count = (1 + self._count) % self.modulo`.
Lean's `%` on `ℤ` agrees with Python's `%` for a positive modulus. -/
def count (modulo : ℤ) (c : ℤ) : ℤ := (1 + c) % modulo

/-- Embedding of `PersistentCounter._save`: write the current value back.
`writeOk = false` models an `IOError` during the write, which the source
swallows (`except IOError: pass`), leaving the storage unchanged and raising
nothing — totality of this function is the embedded no-raise guarantee. -/
def save (c : ℤ) (writeOk : Bool) (st : Storage) : Storage :=
  if writeOk then some (some c) else st

/-- One `with counter:` scope that performs a single `count` access, as in
`process_loop`: `__enter__` loads, the body reads `count` once, `__exit__`
saves.  Returns the value produced by `count` and the final storage. -/
def scopeRun (modulo : ℤ) (writeOk : Bool) (st : Storage) : ℤ × Storage :=
  let c0 := load modulo st
  let c1 := count modulo c0
  (c1, save c1 writeOk st)

end PersistentCounter

/-! ### KalmanTracker (src/main.py lines 417-471)

One-dimensional position/velocity filter.  Timestamps are field elements;
`dt = (current_time - self.last_time).total_seconds()` becomes subtraction. -/

structure KalmanTracker (α : Type) where
  x : α
  v : α
  p_xx : α
  p_xv : α
  p_vv : α
  q : α
  r_pos : α
  r_vel : α
  last_time : Option α

/-- Embedding of `KalmanTracker.update`.  Returns the `(position, velocity)`
pair the method returns together with the mutated tracker. -/
def KalmanTracker.update [LinearOrderedField α] (k : KalmanTracker α)
    (pos vel current_time : α) : (α × α) × KalmanTracker α :=
  match k.last_time with
  | none =>
      ((pos, vel), { k with x := pos, v := vel, last_time := some current_time })
  | some t0 =>
      let dt := current_time - t0
      if dt ≤ 0 then ((k.x, k.v), k)
      else
        let x1 := k.x + k.v * dt
        let p_xx1 := k.p_xx + 2 * k.p_xv * dt + k.p_vv * dt * dt + k.q * dt ^ 3 / 3
        let p_xv1 := k.p_xv + k.p_vv * dt + k.q * dt ^ 2 / 2
        let p_vv1 := k.p_vv + k.q * dt
        let y := pos - x1
        let s := p_xx1 + k.r_pos
        let k_x := p_xx1 / s
        let k_v := p_xv1 / s
        let x2 := x1 + k_x * y
        let v2 := k.v + k_v * y
        let p_xx2 := (1 - k_x) * p_xx1
        let p_xv2 := (1 - k_x) * p_xv1
        let p_vv2 := p_vv1 - k_v * p_xv1
        let y_v := vel - v2
        let s_v := p_vv2 + k.r_vel
        let k_x_v := p_xv2 / s_v
        let k_v_v := p_vv2 / s_v
        let x3 := x2 + k_x_v * y_v
        let v3 := v2 + k_v_v * y_v
        let p_xx3 := p_xx2 - k_x_v * p_xv2
        let p_xv3 := p_xv2 - k_x_v * p_vv2
        let p_vv3 := p_vv2 - k_v_v * p_vv2
        ((x3, v3),
          { k with x := x3, v := v3, p_xx := p_xx3, p_xv := p_xv3, p_vv := p_vv3,
                   last_time := some current_time })

/-- Embedding of `KalmanTracker.predict`: pure linear extrapolation, no state
change. -/
def KalmanTracker.predict [LinearOrderedField α] (k : KalmanTracker α)
    (current_time : α) : α × α :=
  match k.last_time with
  | none => (k.x, k.v)
  | some t0 => (k.x + k.v * (current_time - t0), k.v)

/-- Transcription of the specification's update equations (spec §4.2): predict
step, scalar position correction with pre-update covariance values, then an
independent scalar velocity correction, written from the spec's wording for
comparison with `KalmanTracker.update`. -/
def kalmanUpdateSpec [LinearOrderedField α] (k : KalmanTracker α)
    (pos vel dt current_time : α) : (α × α) × KalmanTracker α :=
  -- Predict
  let x_p := k.x + k.v * dt
  let p_xx_p := k.p_xx + 2 * k.p_xv * dt + k.p_vv * dt ^ 2 + k.q * dt ^ 3 / 3
  let p_xv_p := k.p_xv + k.p_vv * dt + k.q * dt ^ 2 / 2
  let p_vv_p := k.p_vv + k.q * dt
  -- Position correction
  let y := pos - x_p
  let s := p_xx_p + k.r_pos
  let k_x := p_xx_p / s
  let k_v := p_xv_p / s
  let x_c := x_p + k_x * y
  let v_c := k.v + k_v * y
  let p_xx_c := p_xx_p * (1 - k_x)
  let p_xv_c := p_xv_p * (1 - k_x)
  let p_vv_c := p_vv_p - k_v * p_xv_p
  -- Velocity correction (independent second pass)
  let y_v := vel - v_c
  let s_v := p_vv_c + k.r_vel
  let k_x_v := p_xv_c / s_v
  let k_v_v := p_vv_c / s_v
  let x_f := x_c + k_x_v * y_v
  let v_f := v_c + k_v_v * y_v
  let p_xx_f := p_xx_c - k_x_v * p_xv_c
  let p_xv_f := p_xv_c - k_x_v * p_vv_c
  let p_vv_f := p_vv_c - k_v_v * p_vv_c
  ((x_f, v_f),
    { k with x := x_f, v := v_f, p_xx := p_xx_f, p_xv := p_xv_f, p_vv := p_vv_f,
             last_time := some current_time })

/-! ### SmartBeaconing configuration and pure helpers (src/main.py lines 174-233, 737-760)

The `smartbeaconing_*` configuration fields are loaded with `_env_get_int`
and are therefore integers. -/

structure SBCfg where
  fast_speed : ℤ
  slow_speed : ℤ
  fast_rate : ℤ
  slow_rate : ℤ
  min_turn_angle : ℤ
  turn_slope : ℤ
  min_turn_time : ℤ

/-- Configuration used by the spec's examples and by the repository's test
suite: `slow_speed=10, fast_speed=100, slow_rate=600, fast_rate=60,
min_turn_angle=28, turn_slope=255, min_turn_time=5` (the source defaults). -/
def testCfg : SBCfg :=
  { fast_speed := 100, slow_speed := 10, fast_rate := 60, slow_rate := 600,
    min_turn_angle := 28, turn_slope := 255, min_turn_time := 5 }

/-- Python's `int()` applied to a number: truncation toward zero. -/
def pytrunc [LinearOrderedField α] [FloorRing α] (x : α) : ℤ :=
  if 0 ≤ x then ⌊x⌋ else ⌈x⌉

namespace SmartBeaconing

/-- Embedding of `SmartBeaconing._calculate_rate` for a numeric `spd_kmh`
argument: saturate above `fast_speed` and below `slow_speed`, otherwise
`int()` of the linear interpolation. -/
def calculateRate [LinearOrderedField α] [FloorRing α] (cfg : SBCfg) (spd_kmh : α) : ℤ :=
  if spd_kmh > (cfg.fast_speed : α) then cfg.fast_rate
  else if spd_kmh < (cfg.slow_speed : α) then cfg.slow_rate
  else
    pytrunc ((cfg.slow_rate : α)
      - (spd_kmh - (cfg.slow_speed : α))
        * ((cfg.slow_rate : α) - (cfg.fast_rate : α))
        / ((cfg.fast_speed : α) - (cfg.slow_speed : α)))

/-- Embedding of `SmartBeaconing._check_turn` for a numeric `spd_kmh`:
returns `(turn_detected, heading_change, turn_threshold)`. -/
def checkTurn [LinearOrderedField α] (cfg : SBCfg) (last_course cse spd_kmh : α) :
    Bool × α × α :=
  if spd_kmh < 5 then (false, 0, 0)
  else
    let hc0 := |cse - last_course|
    let heading_change := if hc0 > 180 then 360 - hc0 else hc0
    let turn_threshold :=
      (cfg.min_turn_angle : α) + (cfg.turn_slope : α) / (if spd_kmh > 0 then spd_kmh else 1)
    (decide (heading_change > turn_threshold), heading_change, turn_threshold)

end SmartBeaconing

/-! ### Scheduler iteration (src/main.py lines 1389-1434)

One iteration of `process_loop` after the tick and fix have been obtained.
`_get_tasks` builds the fixed task list; the loop dispatches every task whose
condition holds, converts each awaited result with
`sent = res if isinstance(res, bool) else True` (exceptions are caught and
logged), and afterwards sends one status report if any dispatched task
counted as sent.  `send_position`, `send_header` and `send_telemetry` return
`None`; only `ScheduledMessageHandler.send_all` returns a `bool`. -/

inductive TaskName
  | position
  | header
  | telemetry
  | messages
  | status
deriving DecidableEq, Repr

/-- A Python value returned by an awaited task: `None` or a `bool`. -/
inductive PyRes
  | isNone
  | bool (b : Bool)
deriving DecidableEq, Repr

/-- Result of awaiting a task: `.error ()` models a raised exception, which
the loop catches and logs. -/
abbrev TaskOutcome := Except Unit PyRes

/-- Environment of one scheduler iteration: the evaluated dispatch conditions
of the first three tasks (the fourth, `send_all`, is unconditionally due) and
the outcome of awaiting each task.  `posDue` is the value of
`should_send_position`; `headerDue`/`teleDue` come from the tick modulo test,
see `iterationOfTick`.  The outcome fields for the three `None`-returning
senders record only whether the call raised. -/
structure IterEnv where
  posDue : Bool
  headerDue : Bool
  teleDue : Bool
  posRaises : Bool
  headerRaises : Bool
  teleRaises : Bool
  msgOutcome : Except Unit Bool

/-- Outcome of a sender that returns `None` when it does not raise. -/
def noneOutcome (raises : Bool) : TaskOutcome :=
  if raises then .error () else .ok .isNone

/-- Embedding of `_get_tasks`: the fixed-order task list with each task's
condition and outcome. -/
def getTasks (env : IterEnv) : List (TaskName × Bool × TaskOutcome) :=
  [ (.position, env.posDue, noneOutcome env.posRaises),
    (.header, env.headerDue, noneOutcome env.headerRaises),
    (.telemetry, env.teleDue, noneOutcome env.teleRaises),
    (.messages, true, env.msgOutcome.map PyRes.bool) ]

/-- Embedding of `sent = res if isinstance(res, bool) else True`. -/
def resCountsAsSent : PyRes → Bool
  | .isNone => true
  | .bool b => b

/-- One step of the dispatch loop body: skip a task whose condition is false;
otherwise dispatch it and fold its sent flag into `packet_sent` (an exception
is caught, so it contributes nothing to `packet_sent`). -/
def dispatchStep (acc : List TaskName × Bool) (t : TaskName × Bool × TaskOutcome) :
    List TaskName × Bool :=
  if t.2.1 then
    match t.2.2 with
    | .ok r => (acc.1 ++ [t.1], acc.2 || resCountsAsSent r)
    | .error _ => (acc.1 ++ [t.1], acc.2)
  else acc

/-- The dispatch loop of one iteration: the tasks dispatched in order and the
final `packet_sent` flag. -/
def runTasks (env : IterEnv) : List TaskName × Bool :=
  (getTasks env).foldl dispatchStep ([], false)

/-- Full dispatch trace of one iteration: the dispatched tasks followed by
the trailing status report when `packet_sent` is set. -/
def iterationTrace (env : IterEnv) : List TaskName :=
  (runTasks env).1 ++ (if (runTasks env).2 then [TaskName.status] else [])

/-- Conditions of `_get_tasks` as functions of the persistent tick:
`send_header` is due when `timer_tick % 14400 == 1` and `send_telemetry` when
`timer_tick % cfg.sleep == 1`; `posDue` is the `should_send_position` result. -/
def iterationOfTick (posDue : Bool) (timer_tick sleep : ℤ)
    (posRaises headerRaises teleRaises : Bool) (msgOutcome : Except Unit Bool) :
    IterEnv :=
  { posDue := posDue,
    headerDue := timer_tick % 14400 == 1,
    teleDue := timer_tick % sleep == 1,
    posRaises := posRaises, headerRaises := headerRaises, teleRaises := teleRaises,
    msgOutcome := msgOutcome }

/-! ### Real-valued helpers (math.radians, math.degrees, math.atan2, float %) -/

/-- Embedding of `math.radians`. -/
noncomputable def radians (d : ℝ) : ℝ := d * Real.pi / 180

/-- Embedding of `math.degrees`. -/
noncomputable def degrees (r : ℝ) : ℝ := r * 180 / Real.pi

/-- Embedding of `math.atan2` (C convention, `atan2(0, 0) = 0`). -/
noncomputable def atan2 (y x : ℝ) : ℝ :=
  if 0 < x then Real.arctan (y / x)
  else if x < 0 then
    (if 0 ≤ y then Real.arctan (y / x) + Real.pi else Real.arctan (y / x) - Real.pi)
  else
    (if 0 < y then Real.pi / 2 else if y < 0 then -(Real.pi / 2) else 0)

/-- Python's `%` on floats (sign of the divisor): `x - y * floor (x / y)`. -/
noncomputable def pyFmod (x y : ℝ) : ℝ := x - y * ⌊x / y⌋

/-! ### GPSHandler.calculate_distance (src/main.py lines 665-675) -/

/-- Embedding of the static haversine `GPSHandler.calculate_distance`,
Earth radius 6,371,000 m. -/
noncomputable def calculate_distance (lat1 lon1 lat2 lon2 : ℝ) : ℝ :=
  let R : ℝ := 6371000
  let phi1 := radians lat1
  let phi2 := radians lat2
  let delta_phi := radians (lat2 - lat1)
  let delta_lambda := radians (lon2 - lon1)
  let a := Real.sin (delta_phi / 2) ^ 2
    + Real.cos phi1 * Real.cos phi2 * Real.sin (delta_lambda / 2) ^ 2
  let c := 2 * atan2 (Real.sqrt a) (Real.sqrt (1 - a))
  R * c

/-! ### Speed formatting helpers (src/main.py lines 381-390)

`_format_speed` renders a clamped float into the three-digit string
`f'{val:03.0f}'`.  The embedding keeps the clamped numeric value inside a
`PyStr` wrapper; the digit rendering itself is immaterial here because every
use of the result inside `should_send` is a string/number comparison, which
Python 3 rejects with a `TypeError` regardless of the string's content. -/

/-- A Python `str` value produced by `_format_speed`; the payload is the
clamped number whose rendering the string holds. -/
structure PyStr where
  val : ℝ

/-- Embedding of `_format_speed`: clamp to `[0, 999]` and format, yielding a
string. -/
noncomputable def _format_speed (val : ℝ) : PyStr :=
  ⟨max 0 (min 999 val)⟩

/-- Embedding of `_spd_to_kmh`: converts m/s to km/h and returns the
APRS-formatted *string*. -/
noncomputable def _spd_to_kmh (spd : ℝ) : PyStr :=
  _format_speed (if spd ≠ 0 then spd * 3.6 else 0)

/-- A dynamically-typed Python value that is either an `int` or a `str`, as
bound to `spd_kmh` in `should_send`. -/
inductive PyNum
  | int (n : ℤ)
  | str (s : PyStr)

/-- A Python `TypeError`, raised e.g. by ordering a `str` against an `int`. -/
inductive PyErr
  | typeError
deriving DecidableEq, Repr

/-! ### SmartBeaconing.should_send (src/main.py lines 725-798) -/

/-- Mutable state of a `SmartBeaconing` instance. -/
structure SBState where
  last_beacon_time : ℝ
  last_course : ℝ
  parked_lat : ℝ
  parked_lon : ℝ
  is_moving : Bool
  initialized : Bool

namespace SmartBeaconing

/-- Body of `should_send` from line 779 on (after the parked-branch early
return): the `spd_kmh <= 3` comparison, the parking transition, and the
rate/turn decision.  Comparing the `str` produced by `_spd_to_kmh` with the
`int` literal `3` raises `TypeError`; the `int` case proceeds numerically. -/
noncomputable def shouldSendRest (cfg : SBCfg) (s2 : SBState)
    (lat lon cse : ℝ) (spd_kmh : PyNum) (now : ℝ) : Except PyErr (Bool × SBState) :=
  match spd_kmh with
  | .str _ => .error .typeError
  | .int n =>
    if n ≤ 3 then
      .ok (false, { s2 with is_moving := false, parked_lat := lat, parked_lon := lon })
    else
      let rate := calculateRate (α := ℝ) cfg (n : ℝ)
      let td := checkTurn (α := ℝ) cfg s2.last_course cse (n : ℝ)
      let time_since_last := now - s2.last_beacon_time
      let send :=
        (td.1 && decide (time_since_last > (cfg.min_turn_time : ℝ)))
          || decide (time_since_last > (rate : ℝ))
      if send then .ok (true, { s2 with last_beacon_time := now, last_course := cse })
      else .ok (false, s2)

/-- Embedding of `SmartBeaconing.should_send`.  `gps_data` is the optional
fix tuple `(time, lat, lon, alt, spd, cse)`; `now` is the value of
`time.time()`.  The result pairs the returned boolean with the mutated state,
or carries the `TypeError` the method raises when the string produced by
`_spd_to_kmh` reaches the numeric comparison `spd_kmh <= 3`. -/
noncomputable def should_send (cfg : SBCfg) (s : SBState)
    (gps_data : Option (ℝ × ℝ × ℝ × ℝ × ℝ × ℝ)) (now : ℝ) :
    Except PyErr (Bool × SBState) :=
  match gps_data with
  | none => .ok (false, s)
  | some (_, lat, lon, _, spd, cse) =>
    let s1 :=
      if s.initialized then s
      else { s with parked_lat := lat, parked_lon := lon, initialized := true }
    let spd_kmh : PyNum := if spd ≠ 0 then .str (_spd_to_kmh spd) else .int 0
    if s1.is_moving then shouldSendRest cfg s1 lat lon cse spd_kmh now
    else
      let dist := calculate_distance lat lon s1.parked_lat s1.parked_lon
      if dist > 10 then shouldSendRest cfg { s1 with is_moving := true } lat lon cse spd_kmh now
      else .ok (false, s1)

end SmartBeaconing

/-! ### GPSHandler.get_position (src/main.py lines 474-590)

The result of `_retrieve_data('TPV', 'position')` is modelled as an
`Option TPV` input: `none` covers a disabled daemon poll, an unhealthy
daemon, a connection error (caught and logged by `_retrieve_data`) and an
empty stream — all the failure modes the source converts into `None` instead
of propagating.  The fallback cache `PersistentDict(GPS_FILE)` is modelled at
parse level as `Option (ℝ × ℝ × ℝ)` (`none`: missing, corrupt or empty cache
file), and the `float(...)` parses of the static configuration coordinates as
`Option ℝ` (`none`: `ValueError`, caught by the source). -/

/-- A TPV report from gpsd as read by `get_position`: `result.get('time',
timestamp)` keeps the timestamp optional; missing numeric keys default to the
zeros the source supplies. -/
structure TPV where
  time : Option ℝ
  lat : ℝ
  lon : ℝ
  alt : ℝ
  speed : ℝ
  magtrack : ℝ
  track : ℝ

/-- A fix as returned by `get_position`: the tuple
`(time, lat, lon, alt, spd, cse)`. -/
structure Fix where
  t : ℝ
  lat : ℝ
  lon : ℝ
  alt : ℝ
  spd : ℝ
  cse : ℝ

/-- State of a `GPSHandler` instance together with its environment: the two
per-axis filters, the last valid (smoothed) fix, the fallback cache file and
the parsed static configuration coordinates. -/
structure GPSHandlerState where
  gpsd_enabled : Bool
  kf_lat : KalmanTracker ℝ
  kf_lon : KalmanTracker ℝ
  last_valid_fix : Option Fix
  cache : Option (ℝ × ℝ × ℝ)
  cfg_latitude : Option ℝ
  cfg_longitude : Option ℝ
  cfg_altitude : Option ℝ

namespace GPSHandler

/-- Embedding of `GPSHandler._get_fallback_location`: cache coordinates when
present, replaced by the static configuration coordinates when the cached
latitude and longitude are both zero (an unparsable configuration value
resets all three to zero). -/
noncomputable def _get_fallback_location (st : GPSHandlerState) : ℝ × ℝ × ℝ :=
  let c := st.cache.getD (0, 0, 0)
  if c.1 = 0 ∧ c.2.1 = 0 then
    match st.cfg_latitude, st.cfg_longitude, st.cfg_altitude with
    | some la, some lo, some al => (la, lo, al)
    | _, _, _ => (0, 0, 0)
  else c

/-- Embedding of `GPSHandler.get_position`.  `retrieved` is the result of the
awaited `_retrieve_data` call and `now` the current timestamp.  The function
is total: every branch returns a fix, embedding the source's guarantee that
callers never see an exception. -/
noncomputable def get_position (st : GPSHandlerState) (retrieved : Option TPV)
    (now : ℝ) : Fix × GPSHandlerState :=
  if st.gpsd_enabled = false then (⟨now, 0, 0, 0, 0, 0⟩, st)
  else
    match retrieved with
    | some r =>
      let utc := r.time.getD now
      let lat := r.lat
      let lon := r.lon
      let alt := r.alt
      let spd := r.speed
      let cse := if r.magtrack ≠ 0 then r.magtrack else r.track
      let r_earth : ℝ := 6371000
      let v_north := spd * Real.cos (radians cse)
      let v_east := spd * Real.sin (radians cse)
      let v_lat := v_north / (r_earth * Real.pi / 180)
      let v_lon :=
        if Real.cos (radians lat) ≠ 0 then
          v_east / (r_earth * Real.cos (radians lat) * Real.pi / 180)
        else 0
      let ulat := st.kf_lat.update lat v_lat utc
      let ulon := st.kf_lon.update lon v_lon utc
      let lat2 := ulat.1.1
      let v_lat2 := ulat.1.2
      let lon2 := ulon.1.1
      let v_lon2 := ulon.1.2
      let v_north_s := v_lat2 * (r_earth * Real.pi / 180)
      let v_east_s := v_lon2 * (r_earth * Real.cos (radians lat2) * Real.pi / 180)
      let spd2 := Real.sqrt (v_north_s ^ 2 + v_east_s ^ 2)
      let cse2 := pyFmod (degrees (atan2 v_east_s v_north_s) + 360) 360
      let fix : Fix := ⟨utc, lat2, lon2, alt, spd2, cse2⟩
      (fix,
        { st with kf_lat := ulat.2, kf_lon := ulon.2,
                  cache := some (lat2, lon2, alt), last_valid_fix := some fix })
    | none =>
      match st.last_valid_fix with
      | some lvf =>
        let p_lat := st.kf_lat.predict now
        let p_lon := st.kf_lon.predict now
        let last_lat := lvf.lat
        let r_earth : ℝ := 6371000
        let v_north_s := p_lat.2 * (r_earth * Real.pi / 180)
        let v_east_s := p_lon.2 * (r_earth * Real.cos (radians last_lat) * Real.pi / 180)
        let spd := Real.sqrt (v_north_s ^ 2 + v_east_s ^ 2)
        let cse := pyFmod (degrees (atan2 v_east_s v_north_s) + 360) 360
        (⟨now, p_lat.1, p_lon.1, lvf.alt, spd, cse⟩, st)
      | none =>
        let fb := _get_fallback_location st
        (⟨now, fb.1, fb.2.1, fb.2.2, 0, 0⟩, st)

end GPSHandler

/-! ## Theorems -/

/-- C4, counterexample: the stored text `-5` parses as the integer `-5`,
which is below `modulo = 100` and is therefore kept by `_load`, so the
in-memory value right after loading is `-5`, outside `[0, 100)`. -/
theorem C4_load_negative_counterexample :
    PersistentCounter.load 100 (some (some (-5))) = -5 ∧
    ¬ (0 ≤ PersistentCounter.load 100 (some (some (-5)))) := by
  decide

/-- C4 (amended): loading is total (never raises); a missing file or
non-numeric text loads as `0`; the loaded value is always below `modulo` and
is in `[0, modulo)` whenever the stored numeric value is nonnegative (a
negative stored value is kept unchanged); after every `count` access the
value is in `[0, modulo)`. -/
theorem C4_load_and_count_invariant (modulo c n : ℤ) (st : Storage)
    (hpos : 0 < modulo) :
    (PersistentCounter.load modulo none = 0 ∧
      PersistentCounter.load modulo (some none) = 0) ∧
    PersistentCounter.load modulo st < modulo ∧
    (st = some (some n) → 0 ≤ n → 0 ≤ PersistentCounter.load modulo st) ∧
    (0 ≤ PersistentCounter.count modulo c ∧
      PersistentCounter.count modulo c < modulo) := by
  refine ⟨⟨rfl, rfl⟩, ?_, ?_, ?_, ?_⟩
  · match st with
    | none => exact hpos
    | some none => exact hpos
    | some (some m) =>
      simp only [PersistentCounter.load]
      split
      · exact hpos
      · omega
  · intro hst hn
    subst hst
    simp only [PersistentCounter.load]
    split
    · exact le_refl 0
    · exact hn
  · exact Int.emod_nonneg _ (ne_of_gt hpos)
  · exact Int.emod_lt_of_pos _ hpos

/-- C4, witness for the amended invariant at `modulo = 100`, stored value
`7`, in-memory value `42`. -/
theorem C4_load_and_count_invariant_witness :
    (0 : ℤ) < 100 ∧
    (0 ≤ PersistentCounter.count 100 42 ∧ PersistentCounter.count 100 42 < 100) :=
  ⟨by decide, (C4_load_and_count_invariant 100 42 7 (some (some 7)) (by decide)).2.2.2⟩

/-- C5: with `modulo = 100` and stored text `99`, entering the scope loads
`99`, the `count` access returns `(99 + 1) % 100 = 0`, scope exit persists
`0`, and a failing storage write is swallowed, leaving the old storage in
place and raising nothing. -/
theorem C5_counter_wraparound :
    PersistentCounter.load 100 (some (some 99)) = 99 ∧
    PersistentCounter.scopeRun 100 true (some (some 99)) = (0, some (some 0)) ∧
    PersistentCounter.scopeRun 100 false (some (some 99)) = (0, some (some 99)) := by
  decide

/-- C6: once at least one update has established `last_time = t0`, an update
at a timestamp `t ≤ t0` returns the prior `(x, v)` and leaves the whole
tracker state — including `last_time` — unchanged, surfacing no error. -/
theorem C6_nonmonotonic_time_guard {α : Type} [LinearOrderedField α]
    (k : KalmanTracker α) (pos vel t t0 : α)
    (h0 : k.last_time = some t0) (h : t ≤ t0) :
    k.update pos vel t = ((k.x, k.v), k) := by
  have hdt : t - t0 ≤ 0 := by linarith
  simp [KalmanTracker.update, h0, hdt]

/-- C6, witness: a concrete rational tracker updated at `t0 = 10`, re-updated
at the earlier timestamp `9`. -/
theorem C6_nonmonotonic_time_guard_witness :
    (⟨1, 2, 3, 4, 5, 6, 7, 8, some 10⟩ : KalmanTracker ℚ).last_time = some 10 ∧
    (9 : ℚ) ≤ 10 ∧
    (⟨1, 2, 3, 4, 5, 6, 7, 8, some 10⟩ : KalmanTracker ℚ).update 100 200 9 =
      ((1, 2), ⟨1, 2, 3, 4, 5, 6, 7, 8, some 10⟩) :=
  ⟨rfl, by norm_num,
    C6_nonmonotonic_time_guard (⟨1, 2, 3, 4, 5, 6, 7, 8, some 10⟩ : KalmanTracker ℚ)
      100 200 9 10 rfl (by norm_num)⟩

/-- C3: every update after the first with `dt = t - t0 > 0` transforms the
state exactly by the specification's predict step, scalar position
correction and independent scalar velocity correction (covariances computed
from pre-update values), updates `last_time` to `t`, and returns the
resulting `(x, v)`. -/
theorem C3_update_equations {α : Type} [LinearOrderedField α]
    (k : KalmanTracker α) (pos vel t t0 : α)
    (h0 : k.last_time = some t0) (h : 0 < t - t0) :
    k.update pos vel t = kalmanUpdateSpec k pos vel (t - t0) t := by
  have hdt : ¬ (t - t0 ≤ 0) := not_le.mpr h
  simp only [KalmanTracker.update, kalmanUpdateSpec, h0, hdt, if_false]
  simp only [Prod.mk.injEq, KalmanTracker.mk.injEq, and_true, true_and]
  refine ⟨⟨?_, ?_⟩, ?_, ?_, ?_, ?_, ?_⟩ <;> ring

/-- C3, witness: a concrete rational tracker with `last_time = 0` updated at
`t = 1`. -/
theorem C3_update_equations_witness :
    (⟨0, 1, 1, 0, 1, 2, 3, 4, some 0⟩ : KalmanTracker ℚ).last_time = some 0 ∧
    (0 : ℚ) < 1 - 0 ∧
    (⟨0, 1, 1, 0, 1, 2, 3, 4, some 0⟩ : KalmanTracker ℚ).update 5 6 1 =
      kalmanUpdateSpec (⟨0, 1, 1, 0, 1, 2, 3, 4, some 0⟩ : KalmanTracker ℚ) 5 6 (1 - 0) 1 :=
  ⟨rfl, by norm_num,
    C3_update_equations (⟨0, 1, 1, 0, 1, 2, 3, 4, some 0⟩ : KalmanTracker ℚ)
      5 6 1 0 rfl (by norm_num)⟩

/-- C2, counterexample: with the stated configuration the rate at 55 km/h is
`600 - (55-10)*(600-60)/(100-10) = 330`, not the claimed `339`. -/
theorem C2_rate_55_counterexample :
    SmartBeaconing.calculateRate (α := ℚ) testCfg 55 ≠ 339 := by
  norm_num [SmartBeaconing.calculateRate, testCfg, pytrunc]

/-- C2 (amended): with `slow_speed=10, fast_speed=100, slow_rate=600,
fast_rate=60`, `_calculate_rate` returns `600` for every speed at or below
`10` km/h, `60` for every speed at or above `100` km/h, and in between the
`int()` truncation of `slow_rate - (speed - slow_speed) * (slow_rate -
fast_rate) / (fast_speed - slow_speed)`; in particular speed `10` gives
`600`, speed `100` gives `60`, and speed `55` gives `330`. -/
theorem C2_rate_interpolation {α : Type} [LinearOrderedField α] [FloorRing α] (s : α) :
    (s ≤ 10 → SmartBeaconing.calculateRate testCfg s = 600) ∧
    (100 ≤ s → SmartBeaconing.calculateRate testCfg s = 60) ∧
    (10 < s → s < 100 →
      SmartBeaconing.calculateRate testCfg s =
        pytrunc ((600 : α) - (s - 10) * ((600 : α) - 60) / ((100 : α) - 10))) ∧
    SmartBeaconing.calculateRate (α := ℚ) testCfg 10 = 600 ∧
    SmartBeaconing.calculateRate (α := ℚ) testCfg 100 = 60 ∧
    SmartBeaconing.calculateRate (α := ℚ) testCfg 55 = 330 := by
  refine ⟨?_, ?_, ?_, ?_, ?_, ?_⟩
  · intro hs
    rw [SmartBeaconing.calculateRate, if_neg (by push_cast [testCfg]; linarith)]
    rcases lt_or_eq_of_le hs with hlt | heq
    · rw [if_pos (by push_cast [testCfg]; linarith)]
      rfl
    · subst heq
      rw [if_neg (by push_cast [testCfg]; norm_num)]
      norm_num [testCfg, pytrunc]
  · intro hs
    rw [SmartBeaconing.calculateRate]
    rcases lt_or_eq_of_le hs with hlt | heq
    · rw [if_pos (by push_cast [testCfg]; linarith)]
      rfl
    · rw [if_neg (by push_cast [testCfg, ← heq]; norm_num),
        if_neg (by push_cast [testCfg, ← heq]; linarith)]
      rw [← heq]
      norm_num [testCfg, pytrunc]
  · intro h1 h2
    rw [SmartBeaconing.calculateRate, if_neg (by push_cast [testCfg]; linarith),
      if_neg (by push_cast [testCfg]; linarith)]
    congr 1
    push_cast [testCfg]
    ring
  · norm_num [SmartBeaconing.calculateRate, testCfg, pytrunc]
  · norm_num [SmartBeaconing.calculateRate, testCfg, pytrunc]
  · norm_num [SmartBeaconing.calculateRate, testCfg, pytrunc]

/-- C2, witness for the amended interpolation at speed `5` km/h. -/
theorem C2_rate_interpolation_witness :
    (5 : ℚ) ≤ 10 ∧ SmartBeaconing.calculateRate (α := ℚ) testCfg 5 = 600 :=
  ⟨by norm_num, (C2_rate_interpolation (5 : ℚ)).1 (by norm_num)⟩

/-- C7, counterexample: at speed exactly 5 km/h the source still considers
(and here detects) a turn — `_check_turn` rejects only speeds strictly below
5 — contradicting "only when speed_kmh > 5". -/
theorem C7_turn_at_speed_5_counterexample :
    (SmartBeaconing.checkTurn (α := ℚ) testCfg 0 90 5).1 = true ∧ ¬ ((5 : ℚ) > 5) := by
  constructor
  · norm_num [SmartBeaconing.checkTurn, testCfg]
  · norm_num

/-- C7 (amended): `_check_turn` considers a turn only when
`speed_kmh ≥ 5` (for lower speeds it returns `(false, 0, 0)`); for speeds at
or above that bound the heading change is the circular delta
`min |course - last_course| (360 - |course - last_course|)` and a turn is
detected exactly when that delta exceeds
`min_turn_angle + turn_slope / max speed_kmh 1`; in particular
`last_course = 350` with new course `10` yields a delta of `20`, not `340`. -/
theorem C7_turn_detection {α : Type} [LinearOrderedField α]
    (cfg : SBCfg) (last cse s : α) :
    (s < 5 → SmartBeaconing.checkTurn cfg last cse s = (false, 0, 0)) ∧
    (5 ≤ s →
      (SmartBeaconing.checkTurn cfg last cse s).2.1 =
        min |cse - last| (360 - |cse - last|) ∧
      (SmartBeaconing.checkTurn cfg last cse s).1 =
        decide (min |cse - last| (360 - |cse - last|) >
          (cfg.min_turn_angle : α) + (cfg.turn_slope : α) / max s 1)) ∧
    (SmartBeaconing.checkTurn (α := ℚ) testCfg 350 10 72).2.1 = 20 := by
  refine ⟨?_, ?_, ?_⟩
  · intro hs
    rw [SmartBeaconing.checkTurn, if_pos hs]
  · intro hs
    have h5 : ¬ (s < 5) := not_lt.mpr hs
    have hpos : (0 : α) < s := lt_of_lt_of_le (by norm_num) hs
    have hmax : max s 1 = s := max_eq_left (le_trans (by norm_num) hs)
    have hmin : (if |cse - last| > 180 then 360 - |cse - last| else |cse - last|) =
        min |cse - last| (360 - |cse - last|) := by
      split
      · exact (min_eq_right (by linarith)).symm
      · exact (min_eq_left (by linarith)).symm
    rw [SmartBeaconing.checkTurn, if_neg h5]
    constructor
    · exact hmin
    · simp only [if_pos hpos, hmin, hmax]
  · norm_num [SmartBeaconing.checkTurn, testCfg]

/-- C7, witness for the amended turn detection at speed `10` km/h,
`last_course = 0`, new course `100`. -/
theorem C7_turn_detection_witness :
    (5 : ℚ) ≤ 10 ∧
    ((SmartBeaconing.checkTurn (α := ℚ) testCfg 0 100 10).2.1 =
        min |(100 : ℚ) - 0| (360 - |(100 : ℚ) - 0|) ∧
      (SmartBeaconing.checkTurn (α := ℚ) testCfg 0 100 10).1 =
        decide (min |(100 : ℚ) - 0| (360 - |(100 : ℚ) - 0|) >
          (testCfg.min_turn_angle : ℚ) + (testCfg.turn_slope : ℚ) / max 10 1)) :=
  ⟨by norm_num, (C7_turn_detection testCfg 0 100 10).2.1 (by norm_num)⟩

/-- C9: within one scheduler iteration the due tasks are dispatched in the
fixed order position report, periodic header, telemetry, scheduled messages,
and the trailing status report — dispatched exactly when some task counted as
having transmitted — comes after all of them. -/
theorem C9_dispatch_order (env : IterEnv) :
    iterationTrace env =
      (if env.posDue then [TaskName.position] else [])
        ++ (if env.headerDue then [TaskName.header] else [])
        ++ (if env.teleDue then [TaskName.telemetry] else [])
        ++ [TaskName.messages]
        ++ (if (runTasks env).2 then [TaskName.status] else []) := by
  rcases env with ⟨pd, hd, td, pr, hr, tr, mo⟩
  rcases mo with e | b
  · cases e
    cases pd <;> cases hd <;> cases td <;> cases pr <;> cases hr <;> cases tr <;> rfl
  · cases pd <;> cases hd <;> cases td <;> cases pr <;> cases hr <;> cases tr <;>
      cases b <;> rfl

/-- C10: `packet_sent` — and hence the trailing status attempt — is set
exactly when one of `send_position`, `send_header`, `send_telemetry` was
dispatched and did not raise (their `None` results are not booleans, so
`sent = res if isinstance(res, bool) else True` counts them as transmitted),
or when `send_all` returned `True`; only `send_all`'s boolean result can mark
a dispatched task as not having transmitted. -/
theorem C10_nonbool_result_counts_as_sent (env : IterEnv) :
    (runTasks env).2 = true ↔
      (env.posDue = true ∧ env.posRaises = false)
        ∨ (env.headerDue = true ∧ env.headerRaises = false)
        ∨ (env.teleDue = true ∧ env.teleRaises = false)
        ∨ env.msgOutcome = .ok true := by
  rcases env with ⟨pd, hd, td, pr, hr, tr, mo⟩
  rcases mo with e | b
  · cases e
    cases pd <;> cases hd <;> cases td <;> cases pr <;> cases hr <;> cases tr <;>
      simp [runTasks, getTasks, dispatchStep, noneOutcome, resCountsAsSent, Except.map]
  · cases pd <;> cases hd <;> cases td <;> cases pr <;> cases hr <;> cases tr <;>
      cases b <;>
      simp [runTasks, getTasks, dispatchStep, noneOutcome, resCountsAsSent, Except.map]

/-- C8: `get_position` is total (the embedding returns a fix on every branch,
mirroring the source's catch-everything failure handling): with gpsd disabled
it returns a zero fix stamped `now`; on daemon failure or unhealthiness
(`retrieved = none`) it returns a dead-reckoned fix whose position comes from
the per-axis filters' `predict` (altitude from the last valid fix, state
untouched) when a previous valid fix exists, otherwise the fallback location
with zero speed and course; the fallback location is the cached fix when its
coordinates are not both zero, else the static configuration coordinates. -/
theorem C8_fallback_ladder (st : GPSHandlerState) (retrieved : Option TPV) (now : ℝ) :
    (st.gpsd_enabled = false →
      GPSHandler.get_position st retrieved now = (⟨now, 0, 0, 0, 0, 0⟩, st)) ∧
    (st.gpsd_enabled = true → retrieved = none →
      (∀ lvf, st.last_valid_fix = some lvf →
        (GPSHandler.get_position st retrieved now).2 = st ∧
        (GPSHandler.get_position st retrieved now).1.t = now ∧
        (GPSHandler.get_position st retrieved now).1.lat = (st.kf_lat.predict now).1 ∧
        (GPSHandler.get_position st retrieved now).1.lon = (st.kf_lon.predict now).1 ∧
        (GPSHandler.get_position st retrieved now).1.alt = lvf.alt) ∧
      (st.last_valid_fix = none →
        GPSHandler.get_position st retrieved now =
          (⟨now, (GPSHandler._get_fallback_location st).1,
            (GPSHandler._get_fallback_location st).2.1,
            (GPSHandler._get_fallback_location st).2.2, 0, 0⟩, st))) ∧
    (∀ a b c, st.cache = some (a, b, c) → ¬ (a = 0 ∧ b = 0) →
      GPSHandler._get_fallback_location st = (a, b, c)) ∧
    (st.cache = none → ∀ la lo al,
      st.cfg_latitude = some la → st.cfg_longitude = some lo →
      st.cfg_altitude = some al →
      GPSHandler._get_fallback_location st = (la, lo, al)) := by
  refine ⟨?_, ?_, ?_, ?_⟩
  · intro h
    rw [GPSHandler.get_position.eq_def, if_pos h]
  · intro hen hret
    have hne : ¬ (st.gpsd_enabled = false) := by simp [hen]
    constructor
    · intro lvf hlvf
      rw [GPSHandler.get_position.eq_def, if_neg hne]
      subst hret
      simp [hlvf]
    · intro hlvf
      rw [GPSHandler.get_position.eq_def, if_neg hne]
      subst hret
      simp only [hlvf]
  · intro a b c hc hz
    rw [GPSHandler._get_fallback_location, hc]
    simp only [Option.getD_some]
    rw [if_neg hz]
  · intro hc la lo al h1 h2 h3
    rw [GPSHandler._get_fallback_location, hc, h1, h2, h3]
    simp

/-- C8, witness: the disabled case at a concrete state returns the zero fix
stamped with the current timestamp. -/
theorem C8_fallback_ladder_witness :
    (⟨false, ⟨0, 0, 1, 0, 1, 0, 0, 0, none⟩, ⟨0, 0, 1, 0, 1, 0, 0, 0, none⟩,
        none, none, none, none, none⟩ : GPSHandlerState).gpsd_enabled = false ∧
    GPSHandler.get_position
        (⟨false, ⟨0, 0, 1, 0, 1, 0, 0, 0, none⟩, ⟨0, 0, 1, 0, 1, 0, 0, 0, none⟩,
          none, none, none, none, none⟩ : GPSHandlerState) none 5 =
      (⟨5, 0, 0, 0, 0, 0⟩,
        ⟨false, ⟨0, 0, 1, 0, 1, 0, 0, 0, none⟩, ⟨0, 0, 1, 0, 1, 0, 0, 0, none⟩,
          none, none, none, none, none⟩) :=
  ⟨rfl,
    (C8_fallback_ladder
      (⟨false, ⟨0, 0, 1, 0, 1, 0, 0, 0, none⟩, ⟨0, 0, 1, 0, 1, 0, 0, 0, none⟩,
        none, none, none, none, none⟩ : GPSHandlerState) none 5).1 rfl⟩

/-- C1: evaluation of `should_send` at a state that is initialized and
moving, fed a fix with the nonzero speed 0.5 m/s (1.8 km/h, at most 3 km/h).
The claim — backed by the repository's own tests — says this transitions the
trigger back to parked, resets the anchor and returns "do not report"; the
code instead raises `TypeError`, because `_spd_to_kmh` returns the
APRS-formatted *string* and `should_send` compares it against the integer
`3`. -/
theorem C1_should_send_raises_typeerror :
    SmartBeaconing.should_send testCfg
      ⟨0, 0, 0, 0, true, true⟩ (some (0, 3, 4, 0, 1/2, 90)) 1000 =
      .error .typeError := by
  have h : ((1 : ℝ)/2) ≠ 0 := by norm_num
  simp [SmartBeaconing.should_send, SmartBeaconing.shouldSendRest, h]

end RasPiAPRS
